import Mathlib

/-!
# Materialize tooltip (js/tooltip.js): a shallow embedding

The embedding follows `src/js/tooltip.js` function by function.

* Numbers are exact rationals: the pixel metrics the widget reads from the DOM are
  integers or halves of integers, far inside the range in which JavaScript numbers are exact.
* A timer handle is modelled by the fact that its callback is still pending; real time is
  abstracted into the order in which the events (calls, hover events, timer expiries) occur.
* A Velocity tween is modelled by the values it animates to, together with a counter of how
  often `_animateIn` / `_animateOut` ran.
* What the host supplies (geometry of the trigger and of the tooltip, scroll offsets, window
  size, `Materialize.checkWithinContainer`, the members `Tooltip.prototype` inherits from
  `Object.prototype`) is a parameter.
-/

namespace Materialize

/-! ## Options -/

/-- The option record of an instance (`this.options`). `html` is `none` for JavaScript `null`. -/
structure Options where
  exitDelay : ℚ
  enterDelay : ℚ
  html : Option String
  margin : ℚ
  inDuration : ℚ
  outDuration : ℚ
  position : String
  transitionMovement : ℚ
deriving DecidableEq

/-- An options object as a caller (or `_getAttributeOptions`) passes it: every key may be
absent. -/
structure OptionsObject where
  exitDelay : Option ℚ := none
  enterDelay : Option ℚ := none
  html : Option (Option String) := none
  margin : Option ℚ := none
  inDuration : Option ℚ := none
  outDuration : Option ℚ := none
  position : Option String := none
  transitionMovement : Option ℚ := none
deriving DecidableEq

/-- The `_defaults` object of lines 4-13. -/
def _defaults : Options :=
  { exitDelay := 200
    enterDelay := 0
    html := none
    margin := 5
    inDuration := 300
    outDuration := 250
    position := "bottom"
    transitionMovement := 10 }

/-- The call `$.extend({}, base, o)`: a fresh copy of `base` in which every key present in `o`
is overwritten. -/
def extend (base : Options) (o : OptionsObject) : Options :=
  { exitDelay := o.exitDelay.getD base.exitDelay
    enterDelay := o.enterDelay.getD base.enterDelay
    html := o.html.getD base.html
    margin := o.margin.getD base.margin
    inDuration := o.inDuration.getD base.inDuration
    outDuration := o.outDuration.getD base.outDuration
    position := o.position.getD base.position
    transitionMovement := o.transitionMovement.getD base.transitionMovement }

/-- What `getAttribute` returns for the two data attributes of a trigger: `none` is `null`
(attribute absent), `some s` the attribute value (possibly the empty string). -/
structure Attributes where
  dataTooltip : Option String
  dataPosition : Option String
deriving DecidableEq

/-- JavaScript truthiness of a value that is `null` or a string. -/
def truthy : Option String → Bool
  | none => false
  | some s => s != ""

/-! ## Host geometry -/

/-- The `bounding` object handed to `Materialize.checkWithinContainer`. -/
structure Bounding where
  left : ℚ
  top : ℚ
  width : ℚ
  height : ℚ

/-- The edge report of `Materialize.checkWithinContainer`. -/
structure Edges where
  top : Bool
  right : Bool
  bottom : Bool
  left : Bool
deriving DecidableEq

/-- Everything `_positionTooltip` and `_repositionWithinScreen` read from the host at the
moment they run. `checkWithinContainer` is `Materialize.checkWithinContainer(document.body, ·, ·)`,
which is defined outside `tooltip.js`. -/
structure Host where
  offsetLeft : ℚ
  offsetTop : ℚ
  offsetWidth : ℚ
  offsetHeight : ℚ
  tooltipWidth : ℚ
  tooltipHeight : ℚ
  scrollLeft : ℚ
  scrollTop : ℚ
  innerWidth : ℚ
  innerHeight : ℚ
  checkWithinContainer : Bounding → ℚ → Edges

/-- The object `{x, y}` returned by `_repositionWithinScreen`. -/
structure Coordinates where
  x : ℚ
  y : ℚ
deriving DecidableEq

/-- Modelled from the spec: `Materialize.checkWithinContainer` is not part of `tooltip.js`; the
spec says it "checks containment against the document body with an offset". This stand-in
reports an edge when the box, in viewport coordinates, crosses the viewport inset by `offset`.
It is used only to build concrete hosts for examples. -/
def checkWithinViewport (scrollLeft scrollTop innerWidth innerHeight : ℚ)
    (b : Bounding) (offset : ℚ) : Edges :=
  { top := decide (b.top - scrollTop < offset)
    right := decide (b.left - scrollLeft + b.width > innerWidth - offset)
    bottom := decide (b.top - scrollTop + b.height > innerHeight - offset)
    left := decide (b.left - scrollLeft < offset) }

/-! ## The instance -/

/-- A `Tooltip` instance together with the part of its tooltip node the code writes to. -/
structure Tooltip where
  /-- Identity of the trigger element, `this.el`. -/
  el : Nat
  options : Options
  isOpen : Bool
  isHovered : Bool
  /-- The value last assigned to `innerHTML` of the `.tooltip-content` node. -/
  content : Option String
  /-- Whether the callback of `this._enterDelayTimeout` is still pending. -/
  enterDelayTimeout : Bool
  /-- Whether the callback of `this._exitDelayTimeout` is still pending. -/
  exitDelayTimeout : Bool
  xMovement : ℚ
  yMovement : ℚ
  /-- CSS `top` / `left` of the tooltip node, in px. -/
  top : ℚ
  left : ℚ
  /-- The inline style `visibility` is `visible`. -/
  visible : Bool
  /-- Targets of the last tween started on the tooltip node. -/
  opacity : ℚ
  translateX : ℚ
  translateY : ℚ
  /-- How often `_animateIn` ran. -/
  animateInRuns : Nat
  /-- How often `_animateOut` ran. -/
  animateOutRuns : Nat

namespace Tooltip

/-- The fields the constructor (lines 34-41) gives a new instance; the node starts hidden
(no inline visibility, no tween started) and no timer is pending. -/
def create (el : Nat) (options : OptionsObject) : Tooltip :=
  let opts := extend _defaults options
  { el := el
    options := opts
    isOpen := false
    isHovered := false
    content := opts.html
    enterDelayTimeout := false
    exitDelayTimeout := false
    xMovement := 0
    yMovement := 0
    top := 0
    left := 0
    visible := false
    opacity := 0
    translateX := 0
    translateY := 0
    animateInRuns := 0
    animateOutRuns := 0 }

/-- The tooltip is shown: its node is visible and faded in. -/
def shown (t : Tooltip) : Bool :=
  t.visible && decide (t.opacity = 1)

/-- Lines 85-87. -/
def _updateTooltipContent (t : Tooltip) : Tooltip :=
  { t with content := t.options.html }

/-- Lines 270-283. -/
def _getAttributeOptions (a : Attributes) : OptionsObject :=
  let attributeOptions : OptionsObject := {}
  let tooltipTextOption := a.dataTooltip
  let positionOption := a.dataPosition
  let attributeOptions :=
    if truthy tooltipTextOption then { attributeOptions with html := some tooltipTextOption }
    else attributeOptions
  let attributeOptions :=
    if truthy positionOption then
      { attributeOptions with position := some (positionOption.getD "") }
    else attributeOptions
  attributeOptions

/-- Lines 199-228. -/
def _repositionWithinScreen (t : Tooltip) (h : Host) (x y width height : ℚ) : Coordinates :=
  let scrollLeft := h.scrollLeft
  let scrollTop := h.scrollTop
  let newX := x - scrollLeft
  let newY := y - scrollTop
  let bounding : Bounding := { left := x, top := y, width := width, height := height }
  let offset := t.options.margin + t.options.transitionMovement
  let edges := h.checkWithinContainer bounding offset
  let newX :=
    if edges.left then offset
    else if edges.right then newX - (newX + width - h.innerWidth)
    else newX
  let newY :=
    if edges.top then offset
    else if edges.bottom then newY - (newY + height - h.innerHeight)
    else newY
  { x := newX + scrollLeft, y := newY + scrollTop }

/-- What lines 164-189 of `_positionTooltip` compute. -/
structure Placement where
  targetLeft : ℚ
  targetTop : ℚ
  xMovement : ℚ
  yMovement : ℚ

/-- Lines 153-189 of `_positionTooltip`: the target position and the slide offsets. -/
def placement (t : Tooltip) (h : Host) : Placement :=
  let originHeight := h.offsetHeight
  let originWidth := h.offsetWidth
  let tooltipHeight := h.tooltipHeight
  let tooltipWidth := h.tooltipWidth
  let margin := t.options.margin
  let xMovement : ℚ := 0
  let yMovement : ℚ := 0
  let targetTop := h.offsetTop
  let targetLeft := h.offsetLeft
  if t.options.position = "top" then
    { targetTop := targetTop + (-(tooltipHeight) - margin)
      targetLeft := targetLeft + (originWidth / 2 - tooltipWidth / 2)
      xMovement := xMovement
      yMovement := -(t.options.transitionMovement) }
  else if t.options.position = "right" then
    { targetTop := targetTop + (originHeight / 2 - tooltipHeight / 2)
      targetLeft := targetLeft + (originWidth + margin)
      xMovement := t.options.transitionMovement
      yMovement := yMovement }
  else if t.options.position = "left" then
    { targetTop := targetTop + (originHeight / 2 - tooltipHeight / 2)
      targetLeft := targetLeft + (-(tooltipWidth) - margin)
      xMovement := -(t.options.transitionMovement)
      yMovement := yMovement }
  else
    { targetTop := targetTop + (originHeight + margin)
      targetLeft := targetLeft + (originWidth / 2 - tooltipWidth / 2)
      xMovement := xMovement
      yMovement := t.options.transitionMovement }

/-- Lines 152-197. -/
def _positionTooltip (t : Tooltip) (h : Host) : Tooltip :=
  let p := t.placement h
  let newCoordinates :=
    t._repositionWithinScreen h p.targetLeft p.targetTop h.tooltipWidth h.tooltipHeight
  { t with
    xMovement := p.xMovement
    yMovement := p.yMovement
    top := newCoordinates.y
    left := newCoordinates.x }

/-- Lines 230-244. -/
def _animateIn (t : Tooltip) (h : Host) : Tooltip :=
  let t := t._positionTooltip h
  { t with
    visible := true
    opacity := 1
    translateX := t.xMovement
    translateY := t.yMovement
    animateInRuns := t.animateInRuns + 1 }

/-- Lines 246-258. -/
def _animateOut (t : Tooltip) : Tooltip :=
  { t with
    opacity := 0
    translateX := 0
    translateY := 0
    animateOutRuns := t.animateOutRuns + 1 }

/-- Lines 125-135: clear the old exit timer and start a new one. -/
def _setExitDelayTimeout (t : Tooltip) : Tooltip :=
  { t with exitDelayTimeout := true }

/-- Lines 140-150: clear the old enter timer and start a new one. -/
def _setEnterDelayTimeout (t : Tooltip) : Tooltip :=
  { t with enterDelayTimeout := true }

/-- The arrow function of lines 128-134, run when the exit timer expires. -/
def exitDelayCallback (t : Tooltip) : Tooltip :=
  if t.isHovered then t else t._animateOut

/-- The arrow function of lines 143-149, run when the enter timer expires. -/
def enterDelayCallback (t : Tooltip) (h : Host) : Tooltip :=
  if !t.isHovered then t else t._animateIn h

end Tooltip

/-- Lines 101-111; `a` is what the trigger answers to `getAttribute` during the call. -/
def Tooltip.open (t : Tooltip) (a : Attributes) : Tooltip :=
  if t.isOpen then t
  else
    let t := { t with isOpen := true }
    let t := { t with options := extend t.options (_getAttributeOptions a) }
    let t := t._updateTooltipContent
    t._setEnterDelayTimeout

namespace Tooltip

/-- Lines 113-120. -/
def close (t : Tooltip) : Tooltip :=
  if !t.isOpen then t
  else
    let t := { t with isOpen := false }
    t._setExitDelayTimeout

/-- Lines 260-263. -/
def _handleMouseEnter (t : Tooltip) (a : Attributes) : Tooltip :=
  let t := { t with isHovered := true }
  t.open a

/-- Lines 265-268. -/
def _handleMouseLeave (t : Tooltip) : Tooltip :=
  let t := { t with isHovered := false }
  t.close

/-- The events one instance reacts to. A timer expiry is an event only while that timer is
pending. -/
inductive Event where
  | callOpen (a : Attributes)
  | callClose
  | mouseenter (a : Attributes)
  | mouseleave
  | enterDelayFires (h : Host)
  | exitDelayFires

/-- One event applied to an instance. -/
def step (t : Tooltip) : Event → Tooltip
  | .callOpen a => t.open a
  | .callClose => t.close
  | .mouseenter a => t._handleMouseEnter a
  | .mouseleave => t._handleMouseLeave
  | .enterDelayFires h =>
      if t.enterDelayTimeout then enterDelayCallback { t with enterDelayTimeout := false } h
      else t
  | .exitDelayFires =>
      if t.exitDelayTimeout then exitDelayCallback { t with exitDelayTimeout := false }
      else t

/-- A sequence of events applied in order. -/
def run (t : Tooltip) (es : List Event) : Tooltip :=
  es.foldl step t

end Tooltip

/-! ## The document: triggers, instances, tooltip nodes -/

/-- A trigger element: its expando back-reference, its data attributes and the hover
listeners registered on it. A listener is named by the index of the instance whose bound
handler (`handleMouseEnterBound` / `handleMouseLeaveBound`) it is. -/
structure Element where
  M_Tooltip : Option Nat
  attributes : Attributes
  mouseenter : List Nat
  mouseleave : List Nat

/-- The page. Instances are numbered in order of construction; the tooltip node created by
instance `i` (its `tooltipEl`) is node `i`, and `body` lists the tooltip nodes that are
children of `document.body`. -/
structure World where
  elements : Nat → Element
  instances : List Tooltip
  body : List Nat

namespace World

/-- A page with no tooltip: no trigger carries a back-reference, an attribute or a listener. -/
def empty : World :=
  { elements := fun _ =>
      { M_Tooltip := none
        attributes := { dataTooltip := none, dataPosition := none }
        mouseenter := []
        mouseleave := [] }
    instances := []
    body := [] }

/-- Replace the record of trigger `el`. -/
def setElement (w : World) (el : Nat) (e : Element) : World :=
  { w with elements := fun k => if k = el then e else w.elements k }

/-- Run a method of instance `i`, which reads the attributes of its own trigger. A call on an
index no instance has is no call at all. -/
def onInstance (w : World) (i : Nat) (f : Tooltip → Attributes → Tooltip) : World :=
  match w.instances[i]? with
  | none => w
  | some t => { w with instances := w.instances.set i (f t (w.elements t.el).attributes) }

/-- The call `addEventListener`: a listener already registered is not registered twice. -/
def addEventListener (l : List Nat) (i : Nat) : List Nat :=
  if i ∈ l then l else l ++ [i]

/-- The call `removeEventListener`. -/
def removeEventListener (l : List Nat) (i : Nat) : List Nat :=
  l.filter (fun j => j != i)

/-- Lines 67-71, `destroy()` of instance `i`: remove its tooltip node from the document,
remove its two listeners from its trigger, clear the back-reference of its trigger. -/
def destroy (w : World) (i : Nat) : World :=
  match w.instances[i]? with
  | none => w
  | some t =>
    let w := { w with body := w.body.filter (fun n => n != i) }
    let e := w.elements t.el
    let w := w.setElement t.el
      { e with
        mouseenter := removeEventListener e.mouseenter i
        mouseleave := removeEventListener e.mouseleave i }
    let e := w.elements t.el
    w.setElement t.el { e with M_Tooltip := none }

/-- Lines 27-43, `new Tooltip(el, options)`: destroy the instance the trigger refers to, if
any; then set the back-reference, append the tooltip node to the body and register the two
hover listeners. -/
def construct (w : World) (el : Nat) (options : OptionsObject) : World :=
  let w :=
    match (w.elements el).M_Tooltip with
    | some j => w.destroy j
    | none => w
  let i := w.instances.length
  let w := { w with instances := w.instances ++ [Tooltip.create el options] }
  let e := w.elements el
  let w := w.setElement el { e with M_Tooltip := some i }
  let w := { w with body := w.body ++ [i] }
  let e := w.elements el
  w.setElement el
    { e with
      mouseenter := addEventListener e.mouseenter i
      mouseleave := addEventListener e.mouseleave i }

/-- Lines 49-55, `Tooltip.init($els, options)`. -/
def init (w : World) (els : List Nat) (options : OptionsObject) : World :=
  els.foldl (fun w el => w.construct el options) w

/-- A `mouseenter` event on trigger `el`: every listener registered on it runs. -/
def mouseenter (w : World) (el : Nat) : World :=
  (w.elements el).mouseenter.foldl
    (fun w i => w.onInstance i (fun t a => t._handleMouseEnter a)) w

/-- A `mouseleave` event on trigger `el`: every listener registered on it runs. -/
def mouseleave (w : World) (el : Nat) : World :=
  (w.elements el).mouseleave.foldl
    (fun w i => w.onInstance i (fun t _ => t._handleMouseLeave)) w

/-- Whatever can happen on the page. -/
inductive Op where
  | construct (el : Nat) (options : OptionsObject)
  | destroy (i : Nat)
  | callOpen (i : Nat)
  | callClose (i : Nat)
  | mouseenter (el : Nat)
  | mouseleave (el : Nat)
  | enterDelayFires (i : Nat) (h : Host)
  | exitDelayFires (i : Nat)
  | setAttributes (el : Nat) (a : Attributes)

/-- One operation applied to the page. -/
def step (w : World) : Op → World
  | .construct el options => w.construct el options
  | .destroy i => w.destroy i
  | .callOpen i => w.onInstance i (fun t a => t.step (.callOpen a))
  | .callClose i => w.onInstance i (fun t _ => t.step .callClose)
  | .mouseenter el => w.mouseenter el
  | .mouseleave el => w.mouseleave el
  | .enterDelayFires i h => w.onInstance i (fun t _ => t.step (.enterDelayFires h))
  | .exitDelayFires i => w.onInstance i (fun t _ => t.step .exitDelayFires)
  | .setAttributes el a => w.setElement el { w.elements el with attributes := a }

/-- A sequence of operations applied in order. -/
def run (w : World) (ops : List Op) : World :=
  ops.foldl step w

/-- The tooltip nodes in the document body that belong to trigger `el`: those created by an
instance constructed on `el`. -/
def nodesOf (w : World) (el : Nat) : List Nat :=
  w.body.filter (fun n => match w.instances[n]? with
    | some t => t.el == el
    | none => false)

end World

/-! ## The collection API `jQuery.fn.tooltip` -/

/-- The argument of `$(…).tooltip(arg)`: a string, an options object, or nothing. -/
inductive Arg where
  | str (s : String)
  | obj (o : OptionsObject)
  | undefined
deriving DecidableEq

/-- What one call of `jQuery.fn.tooltip` does. -/
inductive Action where
  /-- Line 293: call the method on the instance of the first element and return its result. -/
  | getter (method : String)
  /-- Lines 297-299: call the method on the instance of every element. -/
  | each (method : String)
  /-- Lines 304-305: `Tooltip.init(this, arguments[0])`. -/
  | init (options : Arg)
  /-- Line 309: `jQuery.error(message)`, which throws. -/
  | error (message : String)
  /-- Line 292 when the argument is no string: it has no `slice` method to call. -/
  | typeError
deriving DecidableEq

/-- The own properties of `Tooltip.prototype`: the constructor and every non-static method of
the class body (lines 27-283). The static members `defaults` and `init` are not among them. -/
def prototypeOwn : List String :=
  ["constructor", "getInstance", "destroy", "_appendTooltipEl", "_updateTooltipContent",
   "_setupEventHandlers", "_removeEventHandlers", "open", "close", "_setExitDelayTimeout",
   "_setEnterDelayTimeout", "_positionTooltip", "_repositionWithinScreen", "_animateIn",
   "_animateOut", "_handleMouseEnter", "_handleMouseLeave", "_getAttributeOptions"]

/-- Truthiness of `Tooltip.prototype[key]`: the key is an own method, or a (truthy) member
inherited from `Object.prototype`, which the host defines. An object or `undefined` used as a
key is turned into a string that names no member. -/
def prototypeHas (inherited : String → Bool) : Arg → Bool
  | .str s => decide (s ∈ prototypeOwn) || inherited s
  | .obj _ => inherited "[object Object]"
  | .undefined => inherited "undefined"

/-- Lines 288-311. -/
def tooltip (inherited : String → Bool) (methodOrOptions : Arg) : Action :=
  if prototypeHas inherited methodOrOptions then
    match methodOrOptions with
    | .str s => if s.take 3 = "get" then .getter s else .each s
    | .obj _ => .typeError
    | .undefined => .typeError
  else
    match methodOrOptions with
    | .obj o => .init (.obj o)
    | .undefined => .init .undefined
    | .str s =>
      if s = "" then .init (.str s)
      else .error ("Method " ++ s ++ " does not exist on jQuery.tooltip")

/-- The members every object inherits from `Object.prototype` in an ECMAScript host. -/
def objectPrototype : List String :=
  ["constructor", "hasOwnProperty", "isPrototypeOf", "propertyIsEnumerable", "toLocaleString",
   "toString", "valueOf", "__proto__", "__defineGetter__", "__defineSetter__",
   "__lookupGetter__", "__lookupSetter__"]

/-! ## Concrete data used in examples -/

/-- A trigger near the right edge of a 1000 x 800 window; the tooltip measures 150 x 30. -/
def exampleHost : Host :=
  { offsetLeft := 950
    offsetTop := 100
    offsetWidth := 50
    offsetHeight := 20
    tooltipWidth := 150
    tooltipHeight := 30
    scrollLeft := 0
    scrollTop := 0
    innerWidth := 1000
    innerHeight := 800
    checkWithinContainer := checkWithinViewport 0 0 1000 800 }

/-- A fresh instance on trigger 0 with the default options (margin 5, movement 10). -/
def exampleTooltip : Tooltip :=
  Tooltip.create 0 {}

/-- A fresh instance on trigger 0 constructed with `{html: "Hi", position: "top"}`. -/
def hiTooltip : Tooltip :=
  Tooltip.create 0 { html := some (some "Hi"), position := some "top" }

/-- The `offset` of line 212. -/
def Tooltip.clampOffset (t : Tooltip) : ℚ :=
  t.options.margin + t.options.transitionMovement

/-- The edge report `_repositionWithinScreen` obtains at line 213. -/
def Tooltip.reportedEdges (t : Tooltip) (h : Host) (x y width height : ℚ) : Edges :=
  h.checkWithinContainer { left := x, top := y, width := width, height := height } t.clampOffset

/-- A trigger that carries neither data attribute. -/
def noAttributes : Attributes :=
  { dataTooltip := none, dataPosition := none }

/-- Whether an event is the expiry of one of the two delay timers. -/
def Tooltip.Event.isTimer : Tooltip.Event → Bool
  | .enterDelayFires _ => true
  | .exitDelayFires => true
  | _ => false

/-- A history after which the instance is closed, hovered and hidden with no timer pending:
`open()` whose enter timer expires unhovered, then the pointer enters, then `close()` whose
exit timer expires while hovered. -/
def hoveredHiddenTrace : List Tooltip.Event :=
  [.callOpen noAttributes, .enterDelayFires exampleHost, .mouseenter noAttributes,
   .callClose, .exitDelayFires]

/-- A history after which the instance is open, not hovered and shown with no timer pending:
the pointer enters and the tooltip appears, `close()` whose exit timer expires while hovered,
the pointer leaves, `open()` whose enter timer expires unhovered. -/
def shownUnhoveredTrace : List Tooltip.Event :=
  [.mouseenter noAttributes, .enterDelayFires exampleHost, .callClose, .exitDelayFires,
   .mouseleave, .callOpen noAttributes, .enterDelayFires exampleHost]

/-- The inherited members of `Tooltip.prototype` in a standard host. -/
def standardInherited (s : String) : Bool :=
  decide (s ∈ objectPrototype)

/-- Two constructions on trigger 0, then `destroy()` on the first (already replaced)
instance, then a third construction on trigger 0. -/
def staleDestroyTrace : List World.Op :=
  [.construct 0 {}, .construct 0 {}, .destroy 0, .construct 0 {}]

/-- Every hover listener registered on a trigger is the handler of an instance constructed on
that very trigger. -/
def World.Registered (w : World) : Prop :=
  ∀ el j, (j ∈ (w.elements el).mouseenter ∨ j ∈ (w.elements el).mouseleave) →
    ∃ t, w.instances[j]? = some t ∧ t.el = el

/-- Instance `i` has no hover listener on any trigger. -/
def World.Detached (w : World) (i : Nat) : Prop :=
  ∀ el, i ∉ (w.elements el).mouseenter ∧ i ∉ (w.elements el).mouseleave

/-! ## Viewport clamping -/

/-- The x coordinate `_repositionWithinScreen` returns, case by case. -/
theorem repositionWithinScreen_x (t : Tooltip) (h : Host) (x y width height : ℚ) :
    (t._repositionWithinScreen h x y width height).x =
      (if (t.reportedEdges h x y width height).left then t.clampOffset + h.scrollLeft
       else if (t.reportedEdges h x y width height).right then
         h.innerWidth - width + h.scrollLeft
       else x) := by
  simp only [Tooltip._repositionWithinScreen, Tooltip.reportedEdges, Tooltip.clampOffset]
  split_ifs <;> ring

/-- The y coordinate `_repositionWithinScreen` returns, case by case. -/
theorem repositionWithinScreen_y (t : Tooltip) (h : Host) (x y width height : ℚ) :
    (t._repositionWithinScreen h x y width height).y =
      (if (t.reportedEdges h x y width height).top then t.clampOffset + h.scrollTop
       else if (t.reportedEdges h x y width height).bottom then
         h.innerHeight - height + h.scrollTop
       else y) := by
  simp only [Tooltip._repositionWithinScreen, Tooltip.reportedEdges, Tooltip.clampOffset]
  split_ifs <;> ring

/-- C5: with offset = margin + transitionMovement, `_repositionWithinScreen` returns
x = offset + scrollLeft if the left edge is reported, otherwise innerWidth - width + scrollLeft
if the right edge is reported, otherwise the x it was given; and independently
y = offset + scrollTop if top is reported, otherwise innerHeight - height + scrollTop if bottom
is reported, otherwise the y it was given. At x = 900, width = 150, window width 1000 and no
scroll, with the right edge reported, the result is x = 850. -/
theorem C5_clamp_formula (t : Tooltip) (h : Host) (x y width height : ℚ) :
    (t._repositionWithinScreen h x y width height).x =
      (if (t.reportedEdges h x y width height).left then t.clampOffset + h.scrollLeft
       else if (t.reportedEdges h x y width height).right then
         h.innerWidth - width + h.scrollLeft
       else x) ∧
    (t._repositionWithinScreen h x y width height).y =
      (if (t.reportedEdges h x y width height).top then t.clampOffset + h.scrollTop
       else if (t.reportedEdges h x y width height).bottom then
         h.innerHeight - height + h.scrollTop
       else y) ∧
    ((exampleTooltip.reportedEdges exampleHost 900 125 150 30).left = false ∧
     (exampleTooltip.reportedEdges exampleHost 900 125 150 30).right = true ∧
     (exampleTooltip._repositionWithinScreen exampleHost 900 125 150 30).x = 850) := by
  refine ⟨repositionWithinScreen_x t h x y width height,
    repositionWithinScreen_y t h x y width height, ?_, ?_, ?_⟩
  · norm_num [Tooltip.reportedEdges, Tooltip.clampOffset, exampleHost, exampleTooltip,
      checkWithinViewport, Tooltip.create, extend, _defaults]
  · norm_num [Tooltip.reportedEdges, Tooltip.clampOffset, exampleHost, exampleTooltip,
      checkWithinViewport, Tooltip.create, extend, _defaults]
  · norm_num [Tooltip._repositionWithinScreen, exampleHost, exampleTooltip,
      checkWithinViewport, Tooltip.create, extend, _defaults]

/-- C4 fails as stated: in the example of the spec (naive left 900, width 150, window width
1000, offset 15) the right edge is reported, the box is moved to left = 850 and ends at 1000,
beyond innerWidth - offset = 985. -/
theorem C4_counterexample :
    (exampleTooltip.reportedEdges exampleHost 900 125 150 30).right = true ∧
    (exampleTooltip._repositionWithinScreen exampleHost 900 125 150 30).x
        - exampleHost.scrollLeft = 850 ∧
    ¬ ((exampleTooltip._repositionWithinScreen exampleHost 900 125 150 30).x
        - exampleHost.scrollLeft + 150 ≤ exampleHost.innerWidth - exampleTooltip.clampOffset) := by
  refine ⟨?_, ?_, ?_⟩
  · norm_num [Tooltip.reportedEdges, Tooltip.clampOffset, exampleHost, exampleTooltip,
      checkWithinViewport, Tooltip.create, extend, _defaults]
  · norm_num [Tooltip._repositionWithinScreen, exampleHost, exampleTooltip,
      checkWithinViewport, Tooltip.create, extend, _defaults]
  · norm_num [Tooltip._repositionWithinScreen, Tooltip.clampOffset, exampleHost, exampleTooltip,
      checkWithinViewport, Tooltip.create, extend, _defaults]

/-- C4, amended: when an edge is reported, the returned box, in viewport coordinates, sits at
the inset on the near side (left = offset, top = offset) or flush with the far side of the
viewport (left + width = innerWidth, top + height = innerHeight). Hence, for a box that fits
(offset + size <= viewport size), offset <= left and left + width <= innerWidth when a
horizontal edge was reported, and offset <= top and top + height <= innerHeight when a
vertical edge was reported: the far side is bounded by the viewport, not by the viewport
minus the offset. -/
theorem C4_clamped_box_within_viewport (t : Tooltip) (h : Host) (x y width height : ℚ) :
    ((t.reportedEdges h x y width height).left = true →
      (t._repositionWithinScreen h x y width height).x - h.scrollLeft = t.clampOffset) ∧
    ((t.reportedEdges h x y width height).left = false →
      (t.reportedEdges h x y width height).right = true →
      (t._repositionWithinScreen h x y width height).x - h.scrollLeft + width = h.innerWidth) ∧
    ((t.reportedEdges h x y width height).top = true →
      (t._repositionWithinScreen h x y width height).y - h.scrollTop = t.clampOffset) ∧
    ((t.reportedEdges h x y width height).top = false →
      (t.reportedEdges h x y width height).bottom = true →
      (t._repositionWithinScreen h x y width height).y - h.scrollTop + height = h.innerHeight) ∧
    (((t.reportedEdges h x y width height).left = true ∨
        (t.reportedEdges h x y width height).right = true) →
      t.clampOffset + width ≤ h.innerWidth →
      t.clampOffset ≤ (t._repositionWithinScreen h x y width height).x - h.scrollLeft ∧
      (t._repositionWithinScreen h x y width height).x - h.scrollLeft + width ≤ h.innerWidth) ∧
    (((t.reportedEdges h x y width height).top = true ∨
        (t.reportedEdges h x y width height).bottom = true) →
      t.clampOffset + height ≤ h.innerHeight →
      t.clampOffset ≤ (t._repositionWithinScreen h x y width height).y - h.scrollTop ∧
      (t._repositionWithinScreen h x y width height).y - h.scrollTop + height ≤ h.innerHeight) := by
  have hx := repositionWithinScreen_x t h x y width height
  have hy := repositionWithinScreen_y t h x y width height
  rw [hx, hy]
  refine ⟨?_, ?_, ?_, ?_, ?_, ?_⟩
  · intro h1
    simp [h1]
  · intro h1 h2
    simp [h1, h2]
  · intro h1
    simp [h1]
  · intro h1 h2
    simp [h1, h2]
  · intro h1 hfit
    by_cases hl : (t.reportedEdges h x y width height).left = true
    · rw [if_pos hl]
      constructor <;> linarith
    · have hr : (t.reportedEdges h x y width height).right = true := by
        rcases h1 with h1 | h1
        · exact absurd h1 hl
        · exact h1
      rw [if_neg hl, if_pos hr]
      constructor <;> linarith
  · intro h1 hfit
    by_cases hl : (t.reportedEdges h x y width height).top = true
    · rw [if_pos hl]
      constructor <;> linarith
    · have hr : (t.reportedEdges h x y width height).bottom = true := by
        rcases h1 with h1 | h1
        · exact absurd h1 hl
        · exact h1
      rw [if_neg hl, if_pos hr]
      constructor <;> linarith

/-- C4 at a concrete input: the example host, naive position (900, 125), box 150 x 30. -/
theorem C4_clamped_box_within_viewport_witness :
    (exampleTooltip.reportedEdges exampleHost 900 125 150 30).right = true ∧
    exampleTooltip.clampOffset + 150 ≤ exampleHost.innerWidth ∧
    exampleTooltip.clampOffset ≤
      (exampleTooltip._repositionWithinScreen exampleHost 900 125 150 30).x
        - exampleHost.scrollLeft ∧
    (exampleTooltip._repositionWithinScreen exampleHost 900 125 150 30).x
        - exampleHost.scrollLeft + 150 ≤ exampleHost.innerWidth := by
  have hr : (exampleTooltip.reportedEdges exampleHost 900 125 150 30).right = true := by
    norm_num [Tooltip.reportedEdges, Tooltip.clampOffset, exampleHost, exampleTooltip,
      checkWithinViewport, Tooltip.create, extend, _defaults]
  have hfit : exampleTooltip.clampOffset + 150 ≤ exampleHost.innerWidth := by
    norm_num [Tooltip.clampOffset, exampleHost, exampleTooltip, Tooltip.create, extend,
      _defaults]
  exact ⟨hr, hfit,
    (C4_clamped_box_within_viewport exampleTooltip exampleHost 900 125 150 30).2.2.2.2.1
      (Or.inr hr) hfit⟩

/-! ## Placement -/

/-- C6: the target position `_positionTooltip` passes to the clamp. For "top" the tooltip
bottom is margin above the trigger top (top = triggerTop - tooltipHeight - margin); for
"bottom" and any unrecognised position the tooltip top is margin below the trigger bottom; in
both cases the horizontal centres coincide. For "left" the tooltip right is margin left of the
trigger left (left = triggerLeft - tooltipWidth - margin); for "right" the tooltip left is
margin right of the trigger right; in both cases the vertical centres coincide. -/
theorem C6_naive_placement (t : Tooltip) (h : Host) :
    (t._positionTooltip h).left =
        (t._repositionWithinScreen h (t.placement h).targetLeft (t.placement h).targetTop
          h.tooltipWidth h.tooltipHeight).x ∧
    (t._positionTooltip h).top =
        (t._repositionWithinScreen h (t.placement h).targetLeft (t.placement h).targetTop
          h.tooltipWidth h.tooltipHeight).y ∧
    (t.options.position = "top" →
      (t.placement h).targetTop = h.offsetTop - h.tooltipHeight - t.options.margin ∧
      (t.placement h).targetTop + h.tooltipHeight = h.offsetTop - t.options.margin ∧
      (t.placement h).targetLeft + h.tooltipWidth / 2 = h.offsetLeft + h.offsetWidth / 2) ∧
    (t.options.position ≠ "top" → t.options.position ≠ "right" →
        t.options.position ≠ "left" →
      (t.placement h).targetTop = h.offsetTop + h.offsetHeight + t.options.margin ∧
      (t.placement h).targetLeft + h.tooltipWidth / 2 = h.offsetLeft + h.offsetWidth / 2) ∧
    (t.options.position = "left" →
      (t.placement h).targetLeft = h.offsetLeft - h.tooltipWidth - t.options.margin ∧
      (t.placement h).targetLeft + h.tooltipWidth = h.offsetLeft - t.options.margin ∧
      (t.placement h).targetTop + h.tooltipHeight / 2 = h.offsetTop + h.offsetHeight / 2) ∧
    (t.options.position = "right" →
      (t.placement h).targetLeft = h.offsetLeft + h.offsetWidth + t.options.margin ∧
      (t.placement h).targetTop + h.tooltipHeight / 2 = h.offsetTop + h.offsetHeight / 2) := by
  refine ⟨rfl, rfl, ?_, ?_, ?_, ?_⟩
  · intro hp
    simp only [Tooltip.placement, hp, if_true]
    refine ⟨?_, ?_, ?_⟩ <;> ring
  · intro h1 h2 h3
    simp only [Tooltip.placement, if_neg h1, if_neg h2, if_neg h3]
    refine ⟨?_, ?_⟩ <;> ring
  · intro hp
    have h1 : ¬ ("left" = "top") := by decide
    have h2 : ¬ ("left" = "right") := by decide
    simp only [Tooltip.placement, hp, if_neg h1, if_neg h2, if_true]
    refine ⟨?_, ?_, ?_⟩ <;> ring
  · intro hp
    have h1 : ¬ ("right" = "top") := by decide
    simp only [Tooltip.placement, hp, if_neg h1, if_true]
    refine ⟨?_, ?_⟩ <;> ring

/-- C6 at a concrete input: position "top", margin 5 (the defaults otherwise) on the example
host gives target top = triggerTop - tooltipHeight - 5. -/
theorem C6_naive_placement_witness :
    hiTooltip.options.position = "top" ∧ hiTooltip.options.margin = 5 ∧
    (hiTooltip.placement exampleHost).targetTop
      = exampleHost.offsetTop - exampleHost.tooltipHeight - 5 := by
  have hp : hiTooltip.options.position = "top" := by
    simp [hiTooltip, Tooltip.create, extend]
  have hm : hiTooltip.options.margin = 5 := by
    simp [hiTooltip, Tooltip.create, extend, _defaults]
  refine ⟨hp, hm, ?_⟩
  have key := ((C6_naive_placement hiTooltip exampleHost).2.2.1 hp).1
  rw [hm] at key
  exact key

/-- C7: after `_positionTooltip` the pair (xMovement, yMovement) is (0, -transitionMovement)
for "top", (+transitionMovement, 0) for "right", (-transitionMovement, 0) for "left" and
(0, +transitionMovement) for "bottom" and every other position value, whatever the two fields
held before. -/
theorem C7_slide_offset (t : Tooltip) (h : Host) :
    (t.options.position = "top" →
      (t._positionTooltip h).xMovement = 0 ∧
      (t._positionTooltip h).yMovement = -t.options.transitionMovement) ∧
    (t.options.position = "right" →
      (t._positionTooltip h).xMovement = t.options.transitionMovement ∧
      (t._positionTooltip h).yMovement = 0) ∧
    (t.options.position = "left" →
      (t._positionTooltip h).xMovement = -t.options.transitionMovement ∧
      (t._positionTooltip h).yMovement = 0) ∧
    (t.options.position ≠ "top" → t.options.position ≠ "right" →
        t.options.position ≠ "left" →
      (t._positionTooltip h).xMovement = 0 ∧
      (t._positionTooltip h).yMovement = t.options.transitionMovement) := by
  refine ⟨?_, ?_, ?_, ?_⟩
  · intro hp
    simp [Tooltip._positionTooltip, Tooltip.placement, hp]
  · intro hp
    have h1 : ¬ ("right" = "top") := by decide
    simp [Tooltip._positionTooltip, Tooltip.placement, hp, h1]
  · intro hp
    have h1 : ¬ ("left" = "top") := by decide
    have h2 : ¬ ("left" = "right") := by decide
    simp [Tooltip._positionTooltip, Tooltip.placement, hp, h1, h2]
  · intro h1 h2 h3
    simp [Tooltip._positionTooltip, Tooltip.placement, h1, h2, h3]

/-- C7 at a concrete input: position "top" with movement 10 gives (0, -10), although the
fields held (7, 7) before. -/
theorem C7_slide_offset_witness :
    ({ hiTooltip with xMovement := 7, yMovement := 7 }._positionTooltip exampleHost).xMovement = 0 ∧
    ({ hiTooltip with xMovement := 7, yMovement := 7 }._positionTooltip exampleHost).yMovement
      = -10 := by
  have hp : ({ hiTooltip with xMovement := 7, yMovement := 7 } : Tooltip).options.position
      = "top" := by
    simp [hiTooltip, Tooltip.create, extend]
  have key := (C7_slide_offset { hiTooltip with xMovement := 7, yMovement := 7 } exampleHost).1 hp
  have hm : ({ hiTooltip with xMovement := 7, yMovement := 7 } : Tooltip).options.transitionMovement
      = 10 := by
    simp [hiTooltip, Tooltip.create, extend, _defaults]
  rw [hm] at key
  exact key

/-! ## Data attributes -/

/-- C10 fails as stated: on a closed instance whose content is "Hi", with data-tooltip set to
the empty string and data-position set to the empty string, `open()` keeps html "Hi" and
position "top" although both attributes are set. -/
theorem C10_counterexample :
    hiTooltip.isOpen = false ∧
    (hiTooltip.open { dataTooltip := some "", dataPosition := some "" }).options.html
      = some "Hi" ∧
    (hiTooltip.open { dataTooltip := some "", dataPosition := some "" }).options.html
      ≠ some "" ∧
    (hiTooltip.open { dataTooltip := some "", dataPosition := some "" }).options.position
      = "top" ∧
    (hiTooltip.open { dataTooltip := some "", dataPosition := some "" }).options.position
      ≠ "" := by
  simp [hiTooltip, Tooltip.create, Tooltip.open, extend, Tooltip._getAttributeOptions, truthy,
    Tooltip._updateTooltipContent, Tooltip._setEnterDelayTimeout]

/-- C10, amended: for an instance that is not open, after `open()` options.html is the
data-tooltip value when that attribute is set to a non-empty string and its previous value
otherwise, options.position is the data-position value when that attribute is set to a
non-empty string and its previous value otherwise, every other option is unchanged, and the
rendered content equals the effective options.html. -/
theorem C10_attributes_override (t : Tooltip) (a : Attributes) (hclosed : t.isOpen = false) :
    (t.open a).options.html =
      (match a.dataTooltip with
        | some s => if s = "" then t.options.html else some s
        | none => t.options.html) ∧
    (t.open a).options.position =
      (match a.dataPosition with
        | some s => if s = "" then t.options.position else s
        | none => t.options.position) ∧
    (t.open a).options.exitDelay = t.options.exitDelay ∧
    (t.open a).options.enterDelay = t.options.enterDelay ∧
    (t.open a).options.margin = t.options.margin ∧
    (t.open a).options.inDuration = t.options.inDuration ∧
    (t.open a).options.outDuration = t.options.outDuration ∧
    (t.open a).options.transitionMovement = t.options.transitionMovement ∧
    (t.open a).content = (t.open a).options.html := by
  rcases a with ⟨dt, dp⟩
  rcases dt with _ | s <;> rcases dp with _ | p
  all_goals
    simp only [Tooltip.open, hclosed, extend, Tooltip._getAttributeOptions, truthy,
      Tooltip._updateTooltipContent, Tooltip._setEnterDelayTimeout]
    refine ⟨?_, ?_, ?_, ?_, ?_, ?_, ?_, ?_, ?_⟩
    all_goals first
      | rfl
      | (split_ifs <;> simp_all)

/-- C10 at a concrete input: data-tooltip "Bye" and data-position "left" on the closed
instance constructed with html "Hi" and position "top". -/
theorem C10_attributes_override_witness :
    hiTooltip.isOpen = false ∧
    (hiTooltip.open { dataTooltip := some "Bye", dataPosition := some "left" }).options.html
      = some "Bye" ∧
    (hiTooltip.open { dataTooltip := some "Bye", dataPosition := some "left" }).options.position
      = "left" ∧
    (hiTooltip.open { dataTooltip := some "Bye", dataPosition := some "left" }).content
      = some "Bye" := by
  have hc : hiTooltip.isOpen = false := rfl
  have key := C10_attributes_override hiTooltip
    { dataTooltip := some "Bye", dataPosition := some "left" } hc
  refine ⟨hc, ?_, ?_, ?_⟩
  · simpa using key.1
  · simpa using key.2.1
  · rw [key.2.2.2.2.2.2.2.2]
    simpa using key.1

/-! ## Debounce -/

/-- The call `open()` touches neither the hover flag nor the node style nor the counters. -/
theorem open_preserves (t : Tooltip) (a : Attributes) :
    (t.open a).isHovered = t.isHovered ∧ (t.open a).visible = t.visible ∧
    (t.open a).opacity = t.opacity ∧ (t.open a).animateInRuns = t.animateInRuns ∧
    (t.open a).animateOutRuns = t.animateOutRuns := by
  unfold Tooltip.open
  split_ifs <;>
    simp [Tooltip._updateTooltipContent, Tooltip._setEnterDelayTimeout]

/-- The call `close()` touches neither the hover flag nor the node style nor the counters. -/
theorem close_preserves (t : Tooltip) :
    t.close.isHovered = t.isHovered ∧ t.close.visible = t.visible ∧
    t.close.opacity = t.opacity ∧ t.close.animateInRuns = t.animateInRuns ∧
    t.close.animateOutRuns = t.animateOutRuns := by
  unfold Tooltip.close
  split_ifs <;> simp [Tooltip._setExitDelayTimeout]

/-- While the trigger is not hovered, an expiring timer never runs the enter animation and
leaves a hidden tooltip hidden. -/
theorem timer_step_unhovered (t : Tooltip) (e : Tooltip.Event) (he : e.isTimer = true)
    (hh : t.isHovered = false) (hs : t.shown = false) :
    (t.step e).isHovered = false ∧ (t.step e).shown = false ∧
    (t.step e).animateInRuns = t.animateInRuns := by
  cases e with
  | enterDelayFires h =>
    simp only [Tooltip.step, Tooltip.enterDelayCallback]
    split_ifs <;> simp_all [Tooltip.shown]
  | exitDelayFires =>
    simp only [Tooltip.step, Tooltip.exitDelayCallback]
    split_ifs <;> simp_all [Tooltip.shown, Tooltip._animateOut]
  | callOpen a => simp [Tooltip.Event.isTimer] at he
  | callClose => simp [Tooltip.Event.isTimer] at he
  | mouseenter a => simp [Tooltip.Event.isTimer] at he
  | mouseleave => simp [Tooltip.Event.isTimer] at he

/-- While the trigger is hovered, an expiring timer never runs the exit animation and leaves
a shown tooltip shown. -/
theorem timer_step_hovered (t : Tooltip) (e : Tooltip.Event) (he : e.isTimer = true)
    (hh : t.isHovered = true) (hs : t.shown = true) :
    (t.step e).isHovered = true ∧ (t.step e).shown = true ∧
    (t.step e).animateOutRuns = t.animateOutRuns := by
  cases e with
  | enterDelayFires h =>
    simp only [Tooltip.step, Tooltip.enterDelayCallback]
    split_ifs <;>
      simp_all [Tooltip.shown, Tooltip._animateIn, Tooltip._positionTooltip]
  | exitDelayFires =>
    simp only [Tooltip.step, Tooltip.exitDelayCallback]
    split_ifs <;> simp_all [Tooltip.shown]
  | callOpen a => simp [Tooltip.Event.isTimer] at he
  | callClose => simp [Tooltip.Event.isTimer] at he
  | mouseenter a => simp [Tooltip.Event.isTimer] at he
  | mouseleave => simp [Tooltip.Event.isTimer] at he

/-- Any number of timer expiries on an unhovered, hidden instance: still hidden, the enter
animation has not run. -/
theorem timer_run_unhovered (fires : List Tooltip.Event) :
    ∀ t : Tooltip, (∀ e ∈ fires, e.isTimer = true) → t.isHovered = false → t.shown = false →
      (t.run fires).shown = false ∧ (t.run fires).animateInRuns = t.animateInRuns := by
  induction fires with
  | nil => intro t _ _ hs; exact ⟨hs, rfl⟩
  | cons e es ih =>
    intro t hall hh hs
    obtain ⟨h1, h2, h3⟩ := timer_step_unhovered t e (hall e (List.mem_cons_self e es)) hh hs
    have := ih (t.step e) (fun e' he' => hall e' (List.mem_cons_of_mem e he')) h1 h2
    simp only [Tooltip.run, List.foldl_cons] at this ⊢
    exact ⟨this.1, this.2.trans h3⟩

/-- Any number of timer expiries on a hovered, shown instance: still shown, the exit
animation has not run. -/
theorem timer_run_hovered (fires : List Tooltip.Event) :
    ∀ t : Tooltip, (∀ e ∈ fires, e.isTimer = true) → t.isHovered = true → t.shown = true →
      (t.run fires).shown = true ∧ (t.run fires).animateOutRuns = t.animateOutRuns := by
  induction fires with
  | nil => intro t _ _ hs; exact ⟨hs, rfl⟩
  | cons e es ih =>
    intro t hall hh hs
    obtain ⟨h1, h2, h3⟩ := timer_step_hovered t e (hall e (List.mem_cons_self e es)) hh hs
    have := ih (t.step e) (fun e' he' => hall e' (List.mem_cons_of_mem e he')) h1 h2
    simp only [Tooltip.run, List.foldl_cons] at this ⊢
    exact ⟨this.1, this.2.trans h3⟩

/-- C1 fails as stated: after `hoveredHiddenTrace` the tooltip is hidden (the instance is
closed and hovered, no timer pending); `open()` then starts the enter timer, `close()` follows
before it expires, and when it expires `_animateIn` runs and the tooltip is shown. -/
theorem C1_counterexample :
    (exampleTooltip.run hoveredHiddenTrace).shown = false ∧
    (exampleTooltip.run hoveredHiddenTrace).isOpen = false ∧
    (exampleTooltip.run hoveredHiddenTrace).enterDelayTimeout = false ∧
    (((exampleTooltip.run hoveredHiddenTrace).run
        [.callOpen noAttributes, .callClose]).enterDelayTimeout = true) ∧
    (((exampleTooltip.run hoveredHiddenTrace).run
        [.callOpen noAttributes, .callClose, .enterDelayFires exampleHost]).animateInRuns
      = (exampleTooltip.run hoveredHiddenTrace).animateInRuns + 1) ∧
    (((exampleTooltip.run hoveredHiddenTrace).run
        [.callOpen noAttributes, .callClose, .enterDelayFires exampleHost]).shown = true) := by
  simp [hoveredHiddenTrace, exampleTooltip, Tooltip.run, Tooltip.step, Tooltip.create,
    Tooltip.open, Tooltip.close, Tooltip._handleMouseEnter, Tooltip._handleMouseLeave,
    Tooltip.enterDelayCallback, Tooltip.exitDelayCallback, Tooltip._animateIn,
    Tooltip._animateOut, Tooltip._positionTooltip, Tooltip._setEnterDelayTimeout,
    Tooltip._setExitDelayTimeout, Tooltip._updateTooltipContent, Tooltip.shown]

/-- C1, amended: in every reachable state in which the tooltip is not shown and the trigger is
not hovered, after `open()` and then `close()` the expiry of the enter timer changes nothing
but the timer handle, and however the pending timers expire afterwards `_animateIn` does not
run and the tooltip stays hidden. -/
theorem C1_open_close_debounce (el : Nat) (options : OptionsObject) (es : List Tooltip.Event)
    (a : Attributes) (h : Host) (fires : List Tooltip.Event)
    (hfires : ∀ e ∈ fires, e.isTimer = true)
    (hhidden : ((Tooltip.create el options).run es).shown = false)
    (hunhovered : ((Tooltip.create el options).run es).isHovered = false) :
    ((((Tooltip.create el options).run es).open a).close.step (.enterDelayFires h)
      = { (((Tooltip.create el options).run es).open a).close with
          enterDelayTimeout := false }) ∧
    ((((Tooltip.create el options).run es).run [.callOpen a, .callClose]).run fires).animateInRuns
      = ((Tooltip.create el options).run es).animateInRuns ∧
    ((((Tooltip.create el options).run es).run [.callOpen a, .callClose]).run fires).shown
      = false := by
  have ho := open_preserves ((Tooltip.create el options).run es) a
  have hc := close_preserves (((Tooltip.create el options).run es).open a)
  have hh : (((Tooltip.create el options).run es).open a).close.isHovered = false := by
    rw [hc.1, ho.1]; exact hunhovered
  have hs : (((Tooltip.create el options).run es).open a).close.shown = false := by
    have := hhidden
    simp only [Tooltip.shown] at this ⊢
    rw [hc.2.1, hc.2.2.1, ho.2.1, ho.2.2.1]; exact this
  have hr := timer_run_unhovered fires _ hfires hh hs
  refine ⟨?_, ?_, ?_⟩
  · simp only [Tooltip.step, Tooltip.enterDelayCallback]
    split_ifs with h1 h2
    · rfl
    · simp [hh] at h2
    · cases hcl : (((Tooltip.create el options).run es).open a).close with
      | mk => simp_all
  · have : ((Tooltip.create el options).run es).run [.callOpen a, .callClose]
        = (((Tooltip.create el options).run es).open a).close := rfl
    rw [this, hr.2, hc.2.2.2.1, ho.2.2.2.1]
  · have : ((Tooltip.create el options).run es).run [.callOpen a, .callClose]
        = (((Tooltip.create el options).run es).open a).close := rfl
    rw [this]; exact hr.1

/-- C1 at a concrete input: a fresh instance, `open()` then `close()`, then the enter timer
and the exit timer expire. -/
theorem C1_open_close_debounce_witness :
    ((exampleTooltip.run [.callOpen noAttributes, .callClose]).run
        [.enterDelayFires exampleHost, .exitDelayFires]).animateInRuns = 0 ∧
    ((exampleTooltip.run [.callOpen noAttributes, .callClose]).run
        [.enterDelayFires exampleHost, .exitDelayFires]).shown = false := by
  have key := C1_open_close_debounce 0 {} [] noAttributes exampleHost
    [.enterDelayFires exampleHost, .exitDelayFires]
    (by simp [Tooltip.Event.isTimer])
    (by simp [Tooltip.run, Tooltip.create, Tooltip.shown])
    (by simp [Tooltip.run, Tooltip.create])
  exact ⟨key.2.1, key.2.2⟩

/-- C2 fails as stated: after `shownUnhoveredTrace` the tooltip is shown (the instance is open
and not hovered, no timer pending); `close()` then starts the exit timer, `open()` follows
before it expires, and when it expires `_animateOut` runs and the tooltip is hidden. -/
theorem C2_counterexample :
    (exampleTooltip.run shownUnhoveredTrace).shown = true ∧
    (exampleTooltip.run shownUnhoveredTrace).isOpen = true ∧
    (exampleTooltip.run shownUnhoveredTrace).exitDelayTimeout = false ∧
    (((exampleTooltip.run shownUnhoveredTrace).run
        [.callClose, .callOpen noAttributes]).exitDelayTimeout = true) ∧
    (((exampleTooltip.run shownUnhoveredTrace).run
        [.callClose, .callOpen noAttributes, .exitDelayFires]).animateOutRuns
      = (exampleTooltip.run shownUnhoveredTrace).animateOutRuns + 1) ∧
    (((exampleTooltip.run shownUnhoveredTrace).run
        [.callClose, .callOpen noAttributes, .exitDelayFires]).shown = false) := by
  simp [shownUnhoveredTrace, exampleTooltip, Tooltip.run, Tooltip.step, Tooltip.create,
    Tooltip.open, Tooltip.close, Tooltip._handleMouseEnter, Tooltip._handleMouseLeave,
    Tooltip.enterDelayCallback, Tooltip.exitDelayCallback, Tooltip._animateIn,
    Tooltip._animateOut, Tooltip._positionTooltip, Tooltip._setEnterDelayTimeout,
    Tooltip._setExitDelayTimeout, Tooltip._updateTooltipContent, Tooltip.shown]

/-- C2, amended: in every reachable state in which the tooltip is shown and the trigger is
hovered, after `close()` and then `open()` the expiry of the exit timer changes nothing but
the timer handle, and however the pending timers expire afterwards `_animateOut` does not run
and the tooltip stays visible. -/
theorem C2_close_open_debounce (el : Nat) (options : OptionsObject) (es : List Tooltip.Event)
    (a : Attributes) (fires : List Tooltip.Event)
    (hfires : ∀ e ∈ fires, e.isTimer = true)
    (hshown : ((Tooltip.create el options).run es).shown = true)
    (hhovered : ((Tooltip.create el options).run es).isHovered = true) :
    (((((Tooltip.create el options).run es).close).open a).step .exitDelayFires
      = { ((((Tooltip.create el options).run es).close).open a) with
          exitDelayTimeout := false }) ∧
    ((((Tooltip.create el options).run es).run [.callClose, .callOpen a]).run fires).animateOutRuns
      = ((Tooltip.create el options).run es).animateOutRuns ∧
    ((((Tooltip.create el options).run es).run [.callClose, .callOpen a]).run fires).shown
      = true := by
  have hc := close_preserves ((Tooltip.create el options).run es)
  have ho := open_preserves (((Tooltip.create el options).run es).close) a
  have hh : ((((Tooltip.create el options).run es).close).open a).isHovered = true := by
    rw [ho.1, hc.1]; exact hhovered
  have hs : ((((Tooltip.create el options).run es).close).open a).shown = true := by
    have := hshown
    simp only [Tooltip.shown] at this ⊢
    rw [ho.2.1, ho.2.2.1, hc.2.1, hc.2.2.1]; exact this
  have hr := timer_run_hovered fires _ hfires hh hs
  refine ⟨?_, ?_, ?_⟩
  · simp only [Tooltip.step, Tooltip.exitDelayCallback]
    split_ifs with h1
    · rfl
    · cases hcl : ((((Tooltip.create el options).run es).close).open a) with
      | mk => simp_all
  · have : ((Tooltip.create el options).run es).run [.callClose, .callOpen a]
        = ((((Tooltip.create el options).run es).close).open a) := rfl
    rw [this, hr.2, ho.2.2.2.2, hc.2.2.2.2]
  · have : ((Tooltip.create el options).run es).run [.callClose, .callOpen a]
        = ((((Tooltip.create el options).run es).close).open a) := rfl
    rw [this]; exact hr.1

/-- C2 at a concrete input: the pointer enters and the tooltip appears; then `close()`,
`open()`, and the exit timer and the enter timer expire. -/
theorem C2_close_open_debounce_witness :
    (((exampleTooltip.run [.mouseenter noAttributes, .enterDelayFires exampleHost]).run
        [.callClose, .callOpen noAttributes]).run
        [.exitDelayFires, .enterDelayFires exampleHost]).animateOutRuns = 0 ∧
    (((exampleTooltip.run [.mouseenter noAttributes, .enterDelayFires exampleHost]).run
        [.callClose, .callOpen noAttributes]).run
        [.exitDelayFires, .enterDelayFires exampleHost]).shown = true := by
  have h1 : (exampleTooltip.run
      [.mouseenter noAttributes, .enterDelayFires exampleHost]).shown = true := by
    simp [exampleTooltip, Tooltip.run, Tooltip.step, Tooltip.create, Tooltip.open,
      Tooltip._handleMouseEnter, Tooltip.enterDelayCallback, Tooltip._animateIn,
      Tooltip._positionTooltip, Tooltip._setEnterDelayTimeout, Tooltip._updateTooltipContent,
      Tooltip.shown]
  have h2 : (exampleTooltip.run
      [.mouseenter noAttributes, .enterDelayFires exampleHost]).isHovered = true := by
    simp [exampleTooltip, Tooltip.run, Tooltip.step, Tooltip.create, Tooltip.open,
      Tooltip._handleMouseEnter, Tooltip.enterDelayCallback, Tooltip._animateIn,
      Tooltip._positionTooltip, Tooltip._setEnterDelayTimeout, Tooltip._updateTooltipContent]
  have h3 : (exampleTooltip.run
      [.mouseenter noAttributes, .enterDelayFires exampleHost]).animateOutRuns = 0 := by
    simp [exampleTooltip, Tooltip.run, Tooltip.step, Tooltip.create, Tooltip.open,
      Tooltip._handleMouseEnter, Tooltip.enterDelayCallback, Tooltip._animateIn,
      Tooltip._positionTooltip, Tooltip._setEnterDelayTimeout, Tooltip._updateTooltipContent]
  have key := C2_close_open_debounce 0 {}
    [.mouseenter noAttributes, .enterDelayFires exampleHost] noAttributes
    [.exitDelayFires, .enterDelayFires exampleHost]
    (by simp [Tooltip.Event.isTimer]) h1 h2
  exact ⟨key.2.1.trans h3, key.2.2⟩

/-! ## The collection API -/

/-- C9 fails as stated: "_animateIn" is none of open, close, getInstance, destroy, yet the
call raises no error and runs that method on the instance of every element; so does the
inherited "toString"; and the empty string raises no error either but initialises the
collection. -/
theorem C9_counterexample :
    tooltip standardInherited (.str "_animateIn") = .each "_animateIn" ∧
    tooltip standardInherited (.str "toString") = .each "toString" ∧
    tooltip standardInherited (.str "") = .init (.str "") := by
  refine ⟨?_, ?_, ?_⟩ <;> decide

/-- C9, amended: every non-empty method name that is not a member of `Tooltip.prototype`
(neither the constructor or a method of the class, the underscore-prefixed ones included, nor
a member inherited from `Object.prototype`) makes the call fail with the error
"Method <name> does not exist on jQuery.tooltip" and nothing else happens; each of open,
close and destroy raises no error and is called on the instance of every element, and
getInstance is called on the instance of the first element. -/
theorem C9_unknown_method_error (inherited : String → Bool) (name : String)
    (hown : name ∉ prototypeOwn) (hinherited : inherited name = false) (hne : name ≠ "") :
    tooltip inherited (.str name)
      = .error ("Method " ++ name ++ " does not exist on jQuery.tooltip") ∧
    tooltip inherited (.str "open") = .each "open" ∧
    tooltip inherited (.str "close") = .each "close" ∧
    tooltip inherited (.str "destroy") = .each "destroy" ∧
    tooltip inherited (.str "getInstance") = .getter "getInstance" := by
  refine ⟨?_, ?_, ?_, ?_, ?_⟩
  · simp [tooltip, prototypeHas, hown, hinherited, hne]
  · have h1 : "open" ∈ prototypeOwn := by decide
    have h2 : ¬ ("open".take 3 = "get") := by decide
    simp [tooltip, prototypeHas, h1, h2]
  · have h1 : "close" ∈ prototypeOwn := by decide
    have h2 : ¬ ("close".take 3 = "get") := by decide
    simp [tooltip, prototypeHas, h1, h2]
  · have h1 : "destroy" ∈ prototypeOwn := by decide
    have h2 : ¬ ("destroy".take 3 = "get") := by decide
    simp [tooltip, prototypeHas, h1, h2]
  · have h1 : "getInstance" ∈ prototypeOwn := by decide
    have h2 : "getInstance".take 3 = "get" := by decide
    simp [tooltip, prototypeHas, h1, h2]

/-- C9 at a concrete input: the method name "toggle" in a standard host. -/
theorem C9_unknown_method_error_witness :
    tooltip standardInherited (.str "toggle")
      = .error "Method toggle does not exist on jQuery.tooltip" :=
  (C9_unknown_method_error standardInherited "toggle" (by decide) (by decide) (by decide)).1

/-! ## One tooltip node per trigger -/

/-- C3, the code at the failing input: after two constructions on trigger 0, `destroy()` on
the first instance and a third construction on trigger 0, the document body holds two tooltip
nodes of trigger 0 (those of the second and of the third instance). -/
theorem C3_stale_destroy_leaves_two_nodes :
    (World.empty.run staleDestroyTrace).nodesOf 0 = [1, 2] ∧
    ((World.empty.run staleDestroyTrace).nodesOf 0).length = 2 ∧
    ((World.empty.run (staleDestroyTrace.take 2)).nodesOf 0) = [1] ∧
    ((World.empty.run (staleDestroyTrace.take 3)).elements 0).M_Tooltip = none := by
  refine ⟨?_, ?_, ?_, ?_⟩ <;> decide

/-! ## Teardown -/

/-- No event changes the trigger an instance is bound to. -/
theorem step_el (t : Tooltip) (e : Tooltip.Event) : (t.step e).el = t.el := by
  cases e <;>
    simp only [Tooltip.step, Tooltip.open, Tooltip.close, Tooltip._handleMouseEnter,
      Tooltip._handleMouseLeave, Tooltip.enterDelayCallback, Tooltip.exitDelayCallback,
      Tooltip._animateIn, Tooltip._animateOut, Tooltip._positionTooltip,
      Tooltip._setEnterDelayTimeout, Tooltip._setExitDelayTimeout,
      Tooltip._updateTooltipContent] <;>
    split_ifs <;> rfl

/-- A method call on an instance leaves every trigger as it is. -/
theorem onInstance_elements (w : World) (i : Nat) (f : Tooltip → Attributes → Tooltip) :
    (w.onInstance i f).elements = w.elements := by
  unfold World.onInstance
  split <;> rfl

/-- A method call on instance `i` leaves every other instance as it is. -/
theorem onInstance_getElem_ne (w : World) (i j : Nat) (f : Tooltip → Attributes → Tooltip)
    (h : j ≠ i) : (w.onInstance i f).instances[j]? = w.instances[j]? := by
  unfold World.onInstance
  split
  · rfl
  · simp [List.getElem?_set_ne (Ne.symm h)]

/-- A method call keeps every instance in place, bound to the same trigger. -/
theorem onInstance_persist (w : World) (i : Nat) (f : Tooltip → Attributes → Tooltip)
    (hf : ∀ t a, (f t a).el = t.el) (j : Nat) (t : Tooltip)
    (h : w.instances[j]? = some t) :
    ∃ t', (w.onInstance i f).instances[j]? = some t' ∧ t'.el = t.el := by
  by_cases hji : j = i
  · subst hji
    have hlt : j < w.instances.length := (List.getElem?_eq_some.mp h).1
    refine ⟨f t (w.elements t.el).attributes, ?_, hf _ _⟩
    unfold World.onInstance
    rw [h]
    simp [List.getElem?_set_self hlt]
  · exact ⟨t, by rw [onInstance_getElem_ne w i j f hji]; exact h, rfl⟩

/-- Running the listeners of a list leaves every trigger as it is. -/
theorem foldl_onInstance_elements (f : Tooltip → Attributes → Tooltip) (l : List Nat) :
    ∀ w : World, (l.foldl (fun w i => w.onInstance i f) w).elements = w.elements := by
  induction l with
  | nil => intro w; rfl
  | cons i l ih =>
    intro w
    rw [List.foldl_cons, ih, onInstance_elements]

/-- Running the listeners of a list keeps every instance in place, bound to the same
trigger. -/
theorem foldl_onInstance_persist (f : Tooltip → Attributes → Tooltip)
    (hf : ∀ t a, (f t a).el = t.el) (l : List Nat) :
    ∀ (w : World) (j : Nat) (t : Tooltip), w.instances[j]? = some t →
      ∃ t', (l.foldl (fun w i => w.onInstance i f) w).instances[j]? = some t' ∧
        t'.el = t.el := by
  induction l with
  | nil => intro w j t h; exact ⟨t, h, rfl⟩
  | cons i l ih =>
    intro w j t h
    obtain ⟨t1, h1, e1⟩ := onInstance_persist w i f hf j t h
    obtain ⟨t2, h2, e2⟩ := ih (w.onInstance i f) j t1 h1
    exact ⟨t2, by rw [List.foldl_cons]; exact h2, e2.trans e1⟩

/-- Running the listeners of a list does not touch an instance that is not in the list. -/
theorem foldl_onInstance_not_mem (f : Tooltip → Attributes → Tooltip) (l : List Nat)
    (j : Nat) (hj : j ∉ l) :
    ∀ w : World, (l.foldl (fun w i => w.onInstance i f) w).instances[j]? = w.instances[j]? := by
  induction l with
  | nil => intro w; rfl
  | cons i l ih =>
    intro w
    have hne : j ≠ i := fun h => hj (h ▸ List.mem_cons_self _ _)
    have hl : j ∉ l := fun h => hj (List.mem_cons_of_mem _ h)
    rw [List.foldl_cons, ih hl, onInstance_getElem_ne w i j f hne]

/-- The call `destroy()` leaves the instance records as they are. -/
theorem destroy_instances (w : World) (i : Nat) : (w.destroy i).instances = w.instances := by
  unfold World.destroy
  split <;> rfl

/-- The call `destroy()` registers no listener. -/
theorem destroy_listeners (w : World) (i el j : Nat) :
    (j ∈ ((w.destroy i).elements el).mouseenter → j ∈ (w.elements el).mouseenter) ∧
    (j ∈ ((w.destroy i).elements el).mouseleave → j ∈ (w.elements el).mouseleave) := by
  unfold World.destroy
  split
  · exact ⟨id, id⟩
  · simp only [World.setElement, World.removeEventListener]
    by_cases h : el = ‹Tooltip›.el
    · simp only [h, if_true, List.mem_filter]
      exact ⟨fun h => h.1, fun h => h.1⟩
    · simp only [h, if_false]
      exact ⟨id, id⟩

/-- What `destroy()` achieves at once: node gone, both listeners gone, back-reference
cleared. -/
theorem destroy_now (w : World) (i : Nat) (t : Tooltip) (h : w.instances[i]? = some t) :
    i ∉ (w.destroy i).body ∧ i ∉ ((w.destroy i).elements t.el).mouseenter ∧
    i ∉ ((w.destroy i).elements t.el).mouseleave ∧
    ((w.destroy i).elements t.el).M_Tooltip = none := by
  unfold World.destroy
  rw [h]
  simp [World.setElement, World.removeEventListener, List.mem_filter]

/-- The constructor appends exactly one instance record. -/
theorem construct_instances (w : World) (el : Nat) (o : OptionsObject) :
    (w.construct el o).instances = w.instances ++ [Tooltip.create el o] := by
  unfold World.construct
  cases (w.elements el).M_Tooltip <;> simp [World.setElement, destroy_instances]

/-- The constructor registers the listeners of the new instance on its trigger and no
other. -/
theorem construct_listeners (w : World) (el : Nat) (o : OptionsObject) (el' j : Nat) :
    (j ∈ ((w.construct el o).elements el').mouseenter →
      j ∈ (w.elements el').mouseenter ∨ (j = w.instances.length ∧ el' = el)) ∧
    (j ∈ ((w.construct el o).elements el').mouseleave →
      j ∈ (w.elements el').mouseleave ∨ (j = w.instances.length ∧ el' = el)) := by
  unfold World.construct
  cases hm : (w.elements el).M_Tooltip with
  | none =>
    simp only [World.setElement, World.addEventListener]
    by_cases h : el' = el
    · subst h
      simp only [if_true]
      constructor
      · intro hj
        split_ifs at hj with hmem
        · exact Or.inl hj
        · rcases List.mem_append.mp hj with hj | hj
          · exact Or.inl hj
          · exact Or.inr ⟨by simpa using hj, trivial⟩
      · intro hj
        split_ifs at hj with hmem
        · exact Or.inl hj
        · rcases List.mem_append.mp hj with hj | hj
          · exact Or.inl hj
          · exact Or.inr ⟨by simpa using hj, trivial⟩
    · simp only [h, if_false]
      exact ⟨Or.inl, Or.inl⟩
  | some k =>
    have hd := destroy_listeners w k el' j
    have hi := destroy_instances w k
    simp only [World.setElement, World.addEventListener]
    by_cases h : el' = el
    · subst h
      simp only [if_true]
      constructor
      · intro hj
        split_ifs at hj with hmem
        · exact Or.inl (hd.1 hj)
        · rcases List.mem_append.mp hj with hj | hj
          · exact Or.inl (hd.1 hj)
          · exact Or.inr ⟨by rw [← hi]; simpa using hj, trivial⟩
      · intro hj
        split_ifs at hj with hmem
        · exact Or.inl (hd.2 hj)
        · rcases List.mem_append.mp hj with hj | hj
          · exact Or.inl (hd.2 hj)
          · exact Or.inr ⟨by rw [← hi]; simpa using hj, trivial⟩
    · simp only [h, if_false]
      exact ⟨fun hj => Or.inl (hd.1 hj), fun hj => Or.inl (hd.2 hj)⟩

/-- Every operation keeps every instance in place, bound to the same trigger. -/
theorem step_persist (w : World) (op : World.Op) (j : Nat) (t : Tooltip)
    (h : w.instances[j]? = some t) :
    ∃ t', (w.step op).instances[j]? = some t' ∧ t'.el = t.el := by
  cases op with
  | construct el o =>
    refine ⟨t, ?_, rfl⟩
    have hlt : j < w.instances.length := (List.getElem?_eq_some.mp h).1
    simp only [World.step, construct_instances]
    rw [List.getElem?_append_left hlt]
    exact h
  | destroy i =>
    exact ⟨t, by simp only [World.step, destroy_instances]; exact h, rfl⟩
  | callOpen i => exact onInstance_persist w i _ (fun t a => step_el t _) j t h
  | callClose i => exact onInstance_persist w i _ (fun t _ => step_el t _) j t h
  | mouseenter el =>
    exact foldl_onInstance_persist _ (fun t a => step_el t (.mouseenter a)) _ w j t h
  | mouseleave el =>
    exact foldl_onInstance_persist _ (fun t _ => step_el t .mouseleave) _ w j t h
  | enterDelayFires i hst => exact onInstance_persist w i _ (fun t _ => step_el t _) j t h
  | exitDelayFires i => exact onInstance_persist w i _ (fun t _ => step_el t _) j t h
  | setAttributes el a => exact ⟨t, h, rfl⟩

/-- An operation registers a listener only for the instance it has just constructed, and
only on the trigger that instance is bound to. -/
theorem step_listeners (w : World) (op : World.Op) (el j : Nat) :
    (j ∈ ((w.step op).elements el).mouseenter →
      j ∈ (w.elements el).mouseenter ∨
        (j = w.instances.length ∧ ∃ t', (w.step op).instances[j]? = some t' ∧ t'.el = el)) ∧
    (j ∈ ((w.step op).elements el).mouseleave →
      j ∈ (w.elements el).mouseleave ∨
        (j = w.instances.length ∧ ∃ t', (w.step op).instances[j]? = some t' ∧ t'.el = el)) := by
  cases op with
  | construct el0 o =>
    have hc := construct_listeners w el0 o el j
    have hnew : ∀ k, k = w.instances.length → el = el0 →
        ∃ t', (w.construct el0 o).instances[k]? = some t' ∧ t'.el = el := by
      intro k hk he
      refine ⟨Tooltip.create el0 o, ?_, by rw [he]; rfl⟩
      rw [construct_instances, hk]
      exact List.getElem?_concat_length _ _
    constructor
    · intro hj
      rcases hc.1 hj with h1 | ⟨h1, h2⟩
      · exact Or.inl h1
      · exact Or.inr ⟨h1, hnew j h1 h2⟩
    · intro hj
      rcases hc.2 hj with h1 | ⟨h1, h2⟩
      · exact Or.inl h1
      · exact Or.inr ⟨h1, hnew j h1 h2⟩
  | destroy i =>
    have hd := destroy_listeners w i el j
    exact ⟨fun hj => Or.inl (hd.1 hj), fun hj => Or.inl (hd.2 hj)⟩
  | callOpen i => simp only [World.step, onInstance_elements]; exact ⟨Or.inl, Or.inl⟩
  | callClose i => simp only [World.step, onInstance_elements]; exact ⟨Or.inl, Or.inl⟩
  | mouseenter el0 =>
    simp only [World.step, World.mouseenter, foldl_onInstance_elements]
    exact ⟨Or.inl, Or.inl⟩
  | mouseleave el0 =>
    simp only [World.step, World.mouseleave, foldl_onInstance_elements]
    exact ⟨Or.inl, Or.inl⟩
  | enterDelayFires i hst =>
    simp only [World.step, onInstance_elements]; exact ⟨Or.inl, Or.inl⟩
  | exitDelayFires i => simp only [World.step, onInstance_elements]; exact ⟨Or.inl, Or.inl⟩
  | setAttributes el0 a =>
    simp only [World.step, World.setElement]
    by_cases h : el = el0
    · simp only [h, if_true]; exact ⟨Or.inl, Or.inl⟩
    · simp only [h, if_false]; exact ⟨Or.inl, Or.inl⟩

/-- Listeners stay with the trigger of their instance under every operation. -/
theorem step_registered (w : World) (op : World.Op) (hr : w.Registered) :
    (w.step op).Registered := by
  intro el j hj
  have hl := step_listeners w op el j
  rcases hj with hj | hj
  · rcases hl.1 hj with h1 | ⟨_, h2⟩
    · obtain ⟨t, ht, hel⟩ := hr el j (Or.inl h1)
      obtain ⟨t', ht', hel'⟩ := step_persist w op j t ht
      exact ⟨t', ht', hel'.trans hel⟩
    · exact h2
  · rcases hl.2 hj with h1 | ⟨_, h2⟩
    · obtain ⟨t, ht, hel⟩ := hr el j (Or.inr h1)
      obtain ⟨t', ht', hel'⟩ := step_persist w op j t ht
      exact ⟨t', ht', hel'.trans hel⟩
    · exact h2

/-- Listeners stay with the trigger of their instance along every history. -/
theorem run_registered (ops : List World.Op) :
    ∀ w : World, w.Registered → (w.run ops).Registered := by
  induction ops with
  | nil => intro w hr; exact hr
  | cons op ops ih =>
    intro w hr
    exact ih (w.step op) (step_registered w op hr)

/-- The empty page has no listener at all. -/
theorem empty_registered : World.empty.Registered := by
  intro el j hj
  simp [World.empty] at hj

/-- An existing instance without listeners gets none back, whatever happens. -/
theorem step_detached (w : World) (op : World.Op) (i : Nat) (t : Tooltip)
    (hi : w.instances[i]? = some t) (hd : w.Detached i) :
    (w.step op).Detached i := by
  have hlt : i < w.instances.length := (List.getElem?_eq_some.mp hi).1
  intro el
  have hl := step_listeners w op el i
  constructor
  · intro hmem
    rcases hl.1 hmem with h1 | ⟨h1, _⟩
    · exact (hd el).1 h1
    · omega
  · intro hmem
    rcases hl.2 hmem with h1 | ⟨h1, _⟩
    · exact (hd el).2 h1
    · omega

/-- An existing instance without listeners stays without listeners along every history. -/
theorem run_detached (ops : List World.Op) (i : Nat) :
    ∀ (w : World) (t : Tooltip), w.instances[i]? = some t → w.Detached i →
      (w.run ops).Detached i := by
  induction ops with
  | nil => intro w t _ hd; exact hd
  | cons op ops ih =>
    intro w t hi hd
    obtain ⟨t', ht', _⟩ := step_persist w op i t hi
    exact ih (w.step op) t' ht' (step_detached w op i t hi hd)

/-- Once its listeners are registered on its own trigger only, `destroy()` leaves an
instance without any listener. -/
theorem destroy_detached (w : World) (i : Nat) (t : Tooltip) (hr : w.Registered)
    (hi : w.instances[i]? = some t) : (w.destroy i).Detached i := by
  intro el
  have hnow := destroy_now w i t hi
  have hsub := destroy_listeners w i el i
  by_cases h : el = t.el
  · subst h
    exact ⟨hnow.2.1, hnow.2.2.1⟩
  · constructor
    · intro hmem
      obtain ⟨t0, ht0, hel⟩ := hr el i (Or.inl (hsub.1 hmem))
      rw [hi] at ht0
      exact h (by cases ht0; exact hel.symm)
    · intro hmem
      obtain ⟨t0, ht0, hel⟩ := hr el i (Or.inr (hsub.2 hmem))
      rw [hi] at ht0
      exact h (by cases ht0; exact hel.symm)

/-- C8: for every instance of every reachable page, after `destroy()` its tooltip node is not
in the document body, neither of its hover listeners is registered on its trigger, and the
back-reference of its trigger is cleared; and whatever happens later, a mouseenter or
mouseleave event on any trigger leaves the record of the destroyed instance (isOpen,
isHovered, timers, style, animation counters) exactly as it was. -/
theorem C8_destroy_teardown (ops later : List World.Op) (i : Nat) (t : Tooltip)
    (hi : (World.empty.run ops).instances[i]? = some t) :
    i ∉ ((World.empty.run ops).destroy i).body ∧
    i ∉ (((World.empty.run ops).destroy i).elements t.el).mouseenter ∧
    i ∉ (((World.empty.run ops).destroy i).elements t.el).mouseleave ∧
    (((World.empty.run ops).destroy i).elements t.el).M_Tooltip = none ∧
    (∀ el, ((((World.empty.run ops).destroy i).run later).mouseenter el).instances[i]?
        = (((World.empty.run ops).destroy i).run later).instances[i]?) ∧
    (∀ el, ((((World.empty.run ops).destroy i).run later).mouseleave el).instances[i]?
        = (((World.empty.run ops).destroy i).run later).instances[i]?) := by
  have hr := run_registered ops World.empty empty_registered
  have hnow := destroy_now (World.empty.run ops) i t hi
  have hd0 := destroy_detached (World.empty.run ops) i t hr hi
  have hi0 : ((World.empty.run ops).destroy i).instances[i]? = some t := by
    rw [destroy_instances]; exact hi
  have hd := run_detached later i _ t hi0 hd0
  refine ⟨hnow.1, hnow.2.1, hnow.2.2.1, hnow.2.2.2, ?_, ?_⟩
  · intro el
    exact foldl_onInstance_not_mem _ _ i (hd el).1 _
  · intro el
    exact foldl_onInstance_not_mem _ _ i (hd el).2 _

/-- C8 at a concrete input: one instance on trigger 0 is destroyed, a second one is
constructed on the same trigger, then the pointer enters and leaves. -/
theorem C8_destroy_teardown_witness :
    (World.empty.run [.construct 0 {}]).instances[0]? = some (Tooltip.create 0 {}) ∧
    0 ∉ ((World.empty.run [.construct 0 {}]).destroy 0).body ∧
    ((((World.empty.run [.construct 0 {}]).destroy 0).run [.construct 0 {}]).mouseenter
        0).instances[0]?
      = (((World.empty.run [.construct 0 {}]).destroy 0).run [.construct 0 {}]).instances[0]? ∧
    ((((World.empty.run [.construct 0 {}]).destroy 0).run [.construct 0 {}]).mouseleave
        0).instances[0]?
      = (((World.empty.run [.construct 0 {}]).destroy 0).run [.construct 0 {}]).instances[0]? := by
  have hi : (World.empty.run [.construct 0 {}]).instances[0]? = some (Tooltip.create 0 {}) :=
    rfl
  have key := C8_destroy_teardown [.construct 0 {}] [.construct 0 {}] 0 (Tooltip.create 0 {}) hi
  exact ⟨hi, key.1, key.2.2.2.2.1 0, key.2.2.2.2.2 0⟩

/-- Successive constructions on one trigger, starting from the empty page, leave exactly one
tooltip node of that trigger in the document body: the node of the latest instance. -/
theorem construct_repeat (el : Nat) (o : OptionsObject) (n : Nat) :
    (World.empty.run (List.replicate (n + 1) (.construct el o))).body = [n] ∧
    (World.empty.run (List.replicate (n + 1) (.construct el o))).instances
      = List.replicate (n + 1) (Tooltip.create el o) ∧
    ((World.empty.run (List.replicate (n + 1) (.construct el o))).elements el).M_Tooltip
      = some n ∧
    (World.empty.run (List.replicate (n + 1) (.construct el o))).nodesOf el = [n] := by
  have main : (World.empty.run (List.replicate (n + 1) (.construct el o))).body = [n] ∧
      (World.empty.run (List.replicate (n + 1) (.construct el o))).instances
        = List.replicate (n + 1) (Tooltip.create el o) ∧
      ((World.empty.run (List.replicate (n + 1) (.construct el o))).elements el).M_Tooltip
        = some n := by
    induction n with
    | zero =>
      simp [World.run, World.step, World.construct, World.empty, World.setElement]
    | succ k ih =>
      obtain ⟨hb, hinst, hm⟩ := ih
      rw [List.replicate_succ', World.run, List.foldl_append]
      simp only [List.foldl_cons, List.foldl_nil, World.step]
      change ((World.empty.run (List.replicate (k + 1) (.construct el o))).construct el o).body
          = [k + 1] ∧
        ((World.empty.run (List.replicate (k + 1) (.construct el o))).construct el o).instances
          = List.replicate (k + 1 + 1) (Tooltip.create el o) ∧
        (((World.empty.run (List.replicate (k + 1) (.construct el o))).construct el o).elements
          el).M_Tooltip = some (k + 1)
      generalize World.empty.run (List.replicate (k + 1) (.construct el o)) = w at hb hinst hm
      have hk : w.instances[k]? = some (Tooltip.create el o) := by
        rw [hinst]; simp [List.getElem?_replicate]
      have hlen : w.instances.length = k + 1 := by rw [hinst]; simp
      refine ⟨?_, ?_, ?_⟩
      · simp [World.construct, hm, World.destroy, hk, World.setElement, hb, hlen]
      · rw [construct_instances, hinst, ← List.replicate_succ']
      · simp [World.construct, hm, World.destroy, hk, World.setElement, hlen]
  refine ⟨main.1, main.2.1, main.2.2, ?_⟩
  simp [World.nodesOf, main.1, main.2.1, List.getElem?_replicate, Tooltip.create]

end Materialize
